import Mathlib

/-!
Verification of the client-side state logic of the KPN Salesforce order
assignment components (`availableProducts` and `orderProducts` LWC views).

The JavaScript components are shallowly embedded: each handler becomes a
pure Lean function from its inputs (including the outcome of any remote
Apex call, passed in as an `Except` value) and the current component state
to the new component state together with the observable outputs it emits
(toast notifications, published message-channel events, scheduled actions,
and whether the remote procedure was actually invoked).
-/

namespace KpnOrder

/-- A JavaScript error body (`error.body`) as read by `getErrorMessage`. -/
structure ErrBody where
  message : Option String
deriving DecidableEq

/-- A JavaScript error value as discriminated by `getErrorMessage`:
`null`/`undefined`, a plain string, or an object with optional `body`
and `message` fields. -/
inductive ErrVal where
  | nullish
  | str (s : String)
  | obj (body : Option ErrBody) (message : Option String)
deriving DecidableEq

/-- JavaScript truthiness of an optional string field:
`undefined`/`null` and the empty string are falsy. -/
def truthyStr (s : Option String) : Bool :=
  match s with
  | none => false
  | some v => v ≠ ""

/-- JavaScript truthiness of a whole error value (`!error`). -/
def errFalsy : ErrVal → Bool
  | .nullish => true
  | .str s => s = ""
  | .obj _ _ => false

/-- The `error.body && error.body.message` access path. -/
def errBodyMessage : ErrVal → Option String
  | .obj (some b) _ => b.message
  | _ => none

/-- The `error.message` access path (strings and nullish values have none). -/
def errOwnMessage : ErrVal → Option String
  | .obj _ m => m
  | _ => none

/-- `getErrorMessage(error)` — identical in `availableProducts.js` and
`orderProducts.js`: falsy errors give a fixed phrase; then the body
message, then the own message (each only when truthy); then a string
error is returned as is; anything else gives the final fallback phrase. -/
def getErrorMessage (error : ErrVal) : String :=
  if errFalsy error then "Unknown error occurred"
  else if truthyStr (errBodyMessage error) then (errBodyMessage error).getD ""
  else if truthyStr (errOwnMessage error) then (errOwnMessage error).getD ""
  else
    match error with
    | .str s => s
    | _ => "An error occurred. Please contact your administrator."

/-- A toast notification dispatched through `ShowToastEvent`; the mode is
derived from the variant exactly as in `showToast`. -/
structure Toast where
  title : String
  message : Option String
  variant : String
deriving DecidableEq

/-- `showToast(title, message, variant)` builds a toast whose mode is
sticky for errors and dismissable otherwise. -/
def mkToast (title : String) (message : Option String) (variant : String) : Toast :=
  { title := title, message := message, variant := variant }

/-- The mode computed inside `showToast`. -/
def Toast.mode (t : Toast) : String :=
  if t.variant = "error" then "sticky" else "dismissable"

/-- A product row of the Product List View: the fields delivered by
`getCombinedProducts` (spread via `...product`) together with the
presentation fields the component computes. -/
structure Product where
  productId : Option String
  productCode : Option String
  productName : Option String
  category : Option String
  brand : Option String
  listPrice : Int
  isExternal : Bool
  isAddedToOrder : Bool
  statusLabel : Option String
  statusClass : Option String
  rowClass : Option String
  sourceIcon : String
  sourceBadgeClass : String
  disableAdd : Bool
deriving DecidableEq

/-- The payload published on the ProductAddedMessageChannel. -/
structure PAEvent where
  productId : Option String
  orderItemId : Option String
  orderId : Option String
deriving DecidableEq

/-- The reactive state of the `availableProducts` component. -/
structure APState where
  recordId : Option String
  products : List Product
  filteredProducts : List Product
  searchTerm : String
  isLoading : Bool
  error : Option String
  includeExternal : Bool
  sfCount : Nat
  apiCount : Nat
  totalCount : Nat
  showStats : Bool
  pageSize : Nat
  currentPage : Nat
  isActivated : Bool
deriving DecidableEq

namespace AvailableProducts

/-- `transformProductData(data)`: spread each row and overwrite the
source icon, the source badge class and the add-disabled flag (the latter
from the global order activation flag). -/
def transformProductData (isActivated : Bool) (data : List Product) : List Product :=
  data.map fun product =>
    { product with
      sourceIcon := if product.isExternal then "utility:world" else "utility:salesforce1",
      sourceBadgeClass :=
        if product.isExternal then "slds-badge slds-theme_warning"
        else "slds-badge slds-theme_success",
      disableAdd := isActivated }

/-- The JavaScript `String.prototype.toLowerCase`, character by
character. -/
def toLowerCase (s : String) : String :=
  ⟨s.data.map Char.toLower⟩

/-- Containment of one character list in another at any position. -/
def listIncludes (needle : List Char) : List Char → Bool
  | [] => needle.isEmpty
  | c :: t => needle.isPrefixOf (c :: t) || listIncludes needle t

/-- Substring containment, the `String.includes` of JavaScript. -/
def includesStr (hay needle : String) : Bool :=
  listIncludes needle.data hay.data

/-- One disjunct of the search predicate:
`field && field.toLowerCase().includes(searchTerm)`. -/
def fieldMatch (field : Option String) (term : String) : Bool :=
  truthyStr field && includesStr (toLowerCase (field.getD "")) term

/-- The row predicate used by `applyFilters` when a search term is set. -/
def matchesSearch (term : String) (product : Product) : Bool :=
  fieldMatch product.productName term || fieldMatch product.productCode term ||
    fieldMatch product.category term || fieldMatch product.brand term

/-- `applyFilters()`: filter the full product list by the stored search
term (no filtering when the term is empty) and reset to page 1. -/
def applyFilters (s : APState) : APState :=
  let filtered :=
    if s.searchTerm ≠ "" then s.products.filter (matchesSearch s.searchTerm)
    else s.products
  { s with filteredProducts := filtered, currentPage := 1 }

/-- `handleSearch(event)`: store the lower-cased input value and re-filter. -/
def handleSearch (value : String) (s : APState) : APState :=
  applyFilters { s with searchTerm := toLowerCase value }

/-- `loadProducts()`: the async load; the outcome of the
`getCombinedProducts` call is passed in. On success the transformed rows
replace the collections, the source counts are recomputed and the filters
re-applied; on failure the rows are cleared and an error toast shown.
The stats banner flag is cleared and re-set on the next microtask; the
state returned is the one the operation settles on. -/
def loadProducts (outcome : Except ErrVal (List Product)) (s : APState) :
    APState × List Toast :=
  let s0 := { s with isLoading := true, error := none, currentPage := 1 }
  match outcome with
  | .ok data =>
      let products := transformProductData s0.isActivated data
      let s1 := { s0 with
        products := products,
        sfCount := (products.filter (fun p => !p.isExternal)).length,
        apiCount := (products.filter (fun p => p.isExternal)).length,
        totalCount := products.length,
        showStats := true }
      ({ applyFilters s1 with isLoading := false }, [])
  | .error e =>
      let msg := getErrorMessage e
      ({ s0 with error := some msg, products := [], filteredProducts := [],
                 isLoading := false },
       [mkToast "Error loading products" (some msg) "error"])

/-- `checkActivation()`: fetch the activation flag (outcome passed in);
errors are only logged. On success the add-disabled flag of every row in
both collections is recomputed when rows are present. -/
def checkActivation (outcome : Except ErrVal Bool) (s : APState) : APState :=
  if !truthyStr s.recordId then s
  else
    match outcome with
    | .ok activated =>
        let s1 := { s with isActivated := activated }
        if !s1.products.isEmpty then
          { s1 with
            products := s1.products.map (fun p => { p with disableAdd := s1.isActivated }),
            filteredProducts :=
              s1.filteredProducts.map (fun p => { p with disableAdd := s1.isActivated }) }
        else s1
    | .error _ => s

/-- The per-row update of `markProductAsAdded`. -/
def markRow (productId : Option String) (p : Product) : Product :=
  if p.productId = productId then
    { p with
      isAddedToOrder := true,
      statusLabel := some "✓ Added",
      statusClass := some "slds-text-color_success",
      rowClass := some "slds-hint-parent slds-is-selected",
      disableAdd := true }
  else p

/-- `markProductAsAdded(productId)`: mark the matching rows in both
collections and recompute the source counts; the stats banner flag is
toggled off and back on on the next microtask. -/
def markProductAsAdded (productId : Option String) (s : APState) : APState :=
  let products := s.products.map (markRow productId)
  let filteredProducts := s.filteredProducts.map (markRow productId)
  { s with
    products := products,
    filteredProducts := filteredProducts,
    sfCount := (products.filter (fun p => !p.isExternal)).length,
    apiCount := (products.filter (fun p => p.isExternal)).length,
    totalCount := products.length,
    showStats := true }

/-- The result object returned by the add remote procedures. -/
structure AddResult where
  success : Bool
  message : Option String
  recordId : Option String
deriving DecidableEq

/-- `dispatchProductAddedEvent(productId, orderItemId)`: the payload
published to the message channel. -/
def dispatchProductAddedEvent (productId orderItemId : Option String) (s : APState) :
    PAEvent :=
  { productId := productId, orderItemId := orderItemId, orderId := s.recordId }

/-- The observable outcome of an add handler: the settled state, the
toasts shown, the message-channel events published, and whether the
remote Apex call was made. -/
structure APRes where
  state : APState
  toasts : List Toast
  events : List PAEvent
  remoteCalled : Bool
deriving DecidableEq

/-- `handleAddProduct(productId)`: guard on missing identifiers, then call
`addProductToOrder` (outcome passed in). On success: reload (reload
outcome passed in), mark the row, publish the event, toast success; the
delayed record-view refresh is outside the state. On failure or throw:
toast the error. -/
def handleAddProduct (productId : Option String) (outcome : Except ErrVal AddResult)
    (reload : Except ErrVal (List Product)) (s : APState) : APRes :=
  if !(truthyStr productId && truthyStr s.recordId) then
    { state := s,
      toasts := [mkToast "Error" (some "Missing product or order information") "error"],
      events := [], remoteCalled := false }
  else
    let s0 := { s with isLoading := true }
    match outcome with
    | .ok result =>
        if result.success then
          let s1 := (loadProducts reload s0).1
          let t1 := (loadProducts reload s0).2
          let s2 := markProductAsAdded productId s1
          { state := { s2 with isLoading := false },
            toasts := t1 ++ [mkToast "Success" result.message "success"],
            events := [dispatchProductAddedEvent productId result.recordId s],
            remoteCalled := true }
        else
          { state := { s0 with isLoading := false },
            toasts := [mkToast "Error" result.message "error"],
            events := [], remoteCalled := true }
    | .error e =>
        { state := { s0 with isLoading := false },
          toasts := [mkToast "Error adding product" (some (getErrorMessage e)) "error"],
          events := [], remoteCalled := true }

/-- The JavaScript `a || b` fallback on two optional string fields. -/
def jsOr (a b : Option String) : Option String :=
  if truthyStr a then a else b

/-- `handleAddExternalProduct(product)`: guard on missing product or order
id, then call `addExternalProductToOrder` with the serialized row. On
success: mark the row first, then reload, then publish and toast. A null
result counts as failure with a fixed message. -/
def handleAddExternalProduct (product : Option Product)
    (outcome : Except ErrVal (Option AddResult))
    (reload : Except ErrVal (List Product)) (s : APState) : APRes :=
  match product with
  | none =>
      { state := s,
        toasts := [mkToast "Error" (some "Missing order or product information") "error"],
        events := [], remoteCalled := false }
  | some prod =>
      if !truthyStr s.recordId then
        { state := s,
          toasts := [mkToast "Error" (some "Missing order or product information") "error"],
          events := [], remoteCalled := false }
      else
        let s0 := { s with isLoading := true }
        match outcome with
        | .ok (some result) =>
            if result.success then
              let pid := jsOr prod.productId prod.productCode
              let s1 := markProductAsAdded pid s0
              let s2 := (loadProducts reload s1).1
              let t2 := (loadProducts reload s1).2
              { state := { s2 with isLoading := false },
                toasts := t2 ++ [mkToast "Success" result.message "success"],
                events := [dispatchProductAddedEvent pid result.recordId s],
                remoteCalled := true }
            else
              { state := { s0 with isLoading := false },
                toasts := [mkToast "Error" result.message "error"],
                events := [], remoteCalled := true }
        | .ok none =>
            { state := { s0 with isLoading := false },
              toasts := [mkToast "Error" (some "Failed to add external product") "error"],
              events := [], remoteCalled := true }
        | .error e =>
            { state := { s0 with isLoading := false },
              toasts := [mkToast "Error adding external product"
                           (some (getErrorMessage e)) "error"],
              events := [], remoteCalled := true }

/-- The `totalPages` getter:
`length ? Math.ceil(length / pageSize) : 1` (natural-number ceiling). -/
def totalPages (s : APState) : Nat :=
  if s.filteredProducts.length ≠ 0 then
    (s.filteredProducts.length + s.pageSize - 1) / s.pageSize
  else 1

/-- The `pagedProducts` getter: `slice(start, start + pageSize)` with
`start = (currentPage - 1) * pageSize`. -/
def pagedProducts (s : APState) : List Product :=
  (s.filteredProducts.drop ((s.currentPage - 1) * s.pageSize)).take s.pageSize

/-- The `isFirstPage` getter. -/
def isFirstPage (s : APState) : Bool :=
  s.currentPage = 1

/-- The `isLastPage` getter. -/
def isLastPage (s : APState) : Bool :=
  s.currentPage ≥ totalPages s

/-- `handleNextPage()`: advance one page unless on the last page. -/
def handleNextPage (s : APState) : APState :=
  if !isLastPage s then { s with currentPage := s.currentPage + 1 } else s

/-- `handlePrevPage()`: step back one page unless on the first page. -/
def handlePrevPage (s : APState) : APState :=
  if !isFirstPage s then { s with currentPage := s.currentPage - 1 } else s

end AvailableProducts

/-- An order line row of the Order Line View, as delivered by the
`getOrderProducts` wire plus the `removeDisabled` decoration. -/
structure OrderItem where
  orderItemId : Option String
  productName : Option String
  productCode : Option String
  unitPrice : Int
  quantity : Int
  totalPrice : Int
  removeDisabled : Bool
deriving DecidableEq

/-- The reactive state of the `orderProducts` component. -/
structure OPState where
  recordId : Option String
  orderItems : List OrderItem
  isLoading : Bool
  isActivating : Bool
  isActivated : Bool
  error : Option String
deriving DecidableEq

namespace OrderProducts

/-- `decorateRows(data)`: spread each row and set the remove-disabled
flag from the activation state. -/
def decorateRows (isActivated : Bool) (data : List OrderItem) : List OrderItem :=
  data.map fun item => { item with removeDisabled := isActivated }

/-- The `hasOrderItems` getter: `orderItems && orderItems.length > 0`. -/
def hasOrderItems (s : OPState) : Bool :=
  !s.orderItems.isEmpty

/-- A delivery of the `getOrderProducts` wired query (`wiredOrderItems`):
data replaces the decorated rows; an error clears them and shows a toast. -/
def wiredOrderItems (result : Except ErrVal (List OrderItem)) (s : OPState) :
    OPState × List Toast :=
  match result with
  | .ok data =>
      ({ s with orderItems := decorateRows s.isActivated data, error := none }, [])
  | .error e =>
      let msg := getErrorMessage e
      ({ s with error := some msg, orderItems := [] },
       [mkToast "Error loading order products" (some msg) "error"])

/-- `checkOrderActivationStatus()`: no-op without a record id; the
`isOrderActivated` outcome is passed in; a throw is only logged. On
success the flag is stored and existing rows are re-decorated. -/
def checkOrderActivationStatus (outcome : Except ErrVal Bool) (s : OPState) : OPState :=
  if !truthyStr s.recordId then s
  else
    match outcome with
    | .ok activated =>
        let s1 := { s with isActivated := activated }
        if !s1.orderItems.isEmpty then
          { s1 with orderItems := decorateRows s1.isActivated s1.orderItems }
        else s1
    | .error _ => s

/-- `refreshOrderProducts()`: re-run the wired query through
`refreshApex` (fresh outcome passed in) and re-decorate the rows. -/
def refreshOrderProducts (result : Except ErrVal (List OrderItem)) (s : OPState) :
    OPState × List Toast :=
  let s0 := { s with isLoading := true }
  let s1 := (wiredOrderItems result s0).1
  let t1 := (wiredOrderItems result s0).2
  let s2 :=
    if !s1.orderItems.isEmpty then
      { s1 with orderItems := decorateRows s1.isActivated s1.orderItems }
    else s1
  ({ s2 with isLoading := false }, t1)

/-- The result object returned by the `activateOrder` remote procedure. -/
structure ActResult where
  success : Bool
  message : Option String
deriving DecidableEq

/-- The result object returned by the `removeOrderItem` remote procedure. -/
structure RemoveResult where
  success : Bool
  message : Option String
deriving DecidableEq

/-- The observable outcome of an Order Line View handler. -/
structure OPRes where
  state : OPState
  toasts : List Toast
  remoteCalled : Bool
deriving DecidableEq

/-- `handleActivateOrder()`: three local guards (missing id, already
activated, no rows), then the `activateOrder` call (outcome passed in).
Success stores the flag and triggers a full page reload; failure and
throws only toast. -/
def handleActivateOrder (outcome : Except ErrVal ActResult) (s : OPState) : OPRes :=
  if !truthyStr s.recordId then
    { state := s,
      toasts := [mkToast "Error" (some "Order ID is missing") "error"],
      remoteCalled := false }
  else if s.isActivated then
    { state := s,
      toasts := [mkToast "Warning" (some "Order is already activated") "warning"],
      remoteCalled := false }
  else if !hasOrderItems s then
    { state := s,
      toasts := [mkToast "Error" (some "Cannot activate order without products") "error"],
      remoteCalled := false }
  else
    let s0 := { s with isActivating := true }
    match outcome with
    | .ok result =>
        if result.success then
          { state := { s0 with isActivated := true, isActivating := false },
            toasts := [mkToast "Success" result.message "success"],
            remoteCalled := true }
        else
          { state := { s0 with isActivating := false },
            toasts := [mkToast "Activation Failed" result.message "error"],
            remoteCalled := true }
    | .error e =>
        { state := { s0 with isActivating := false },
          toasts := [mkToast "Error activating order" (some (getErrorMessage e)) "error"],
          remoteCalled := true }

/-- `handleRowAction(event)` for the remove button: guard on activation,
then call `removeOrderItem` (outcome passed in; a null result counts as
failure). Success toasts and triggers the reload and navigation refresh,
both outside this state. -/
def handleRowAction (actionName : String) (_row : OrderItem)
    (outcome : Except ErrVal (Option RemoveResult)) (s : OPState) : OPRes :=
  if actionName = "remove" then
    if s.isActivated then
      { state := s,
        toasts := [mkToast "Warning"
                     (some "Cannot remove products from an activated order") "warning"],
        remoteCalled := false }
    else
      let s0 := { s with isLoading := true }
      match outcome with
      | .ok (some res) =>
          if res.success then
            { state := { s0 with isLoading := false },
              toasts := [mkToast "Success" res.message "success"],
              remoteCalled := true }
          else
            { state := { s0 with isLoading := false },
              toasts := [mkToast "Error" res.message "error"],
              remoteCalled := true }
      | .ok none =>
          { state := { s0 with isLoading := false },
            toasts := [mkToast "Error" (some "Unable to remove product") "error"],
            remoteCalled := true }
      | .error e =>
          { state := { s0 with isLoading := false },
            toasts := [mkToast "Error removing product"
                         (some (getErrorMessage e)) "error"],
            remoteCalled := true }
  else
    { state := s, toasts := [], remoteCalled := false }

/-- The two delayed actions `handleProductAddedMessage` can schedule. -/
inductive ScheduledAction where
  | reloadOrderProducts
  | refreshRecordView
deriving DecidableEq

/-- `handleProductAddedMessage(message)`: only a non-null message whose
`orderId` equals the view record id schedules the data reload and the
delayed record-view refresh; anything else does nothing. -/
def handleProductAddedMessage (message : Option PAEvent) (s : OPState) :
    OPState × List ScheduledAction :=
  match message with
  | some m =>
      if m.orderId = s.recordId then
        (s, [ScheduledAction.reloadOrderProducts, ScheduledAction.refreshRecordView])
      else (s, [])
  | none => (s, [])

end OrderProducts

/-- Modelled from the spec: the server-side order state kept by the Apex
controllers (`OrderProductsController`, `AvailableProductsController`),
which are part of this repository but not under the sources embedded
here. Only the activation flag matters to the claims: "Activation: a
one-way state transition on an order that freezes further line-item
edits." -/
structure Server where
  activated : Bool
deriving DecidableEq

/-- Modelled from the spec: the remote `isOrderActivated(orderId) -> bool`
(Apex, not embedded) reports the order activation flag. -/
def isOrderActivatedRemote (sv : Server) : Bool :=
  sv.activated

/-- Modelled from the spec: the remote
`activateOrder(orderId) -> (success, message)` (Apex, not embedded).
Activation is a one-way transition, so a successful call records the flag
and a failed call leaves the order unchanged. -/
def activateOrderRemote (sv : Server) (succeeds : Bool) :
    Server × OrderProducts.ActResult :=
  if succeeds then
    ({ activated := true }, { success := true, message := some "Order activated" })
  else
    (sv, { success := false, message := some "Activation failed" })

/-- A whole-session state: the spec-modelled server plus the two sibling
view states. -/
structure Sys where
  server : Server
  op : OPState
  ap : APState
deriving DecidableEq

/-- One user- or wire-triggered operation of either view, carrying the
environment choices it depends on (delivered data, thrown errors, remote
results). The activation-relevant remote reads are answered by the
modelled server, not by the environment. -/
inductive SysOp where
  | checkStatusOP (threw : Bool)
  | wireDeliver (result : Except ErrVal (List OrderItem))
  | refreshOP (result : Except ErrVal (List OrderItem))
  | activate (threw : Bool) (succeeds : Bool)
  | removeRow (row : OrderItem) (outcome : Except ErrVal (Option OrderProducts.RemoveResult))
  | productAddedMsg (message : Option PAEvent)
  | checkActivationAP (threw : Bool)
  | loadAP (outcome : Except ErrVal (List Product))
  | searchAP (value : String)
  | addAP (productId : Option String) (outcome : Except ErrVal AvailableProducts.AddResult)
      (reload : Except ErrVal (List Product))
  | addExtAP (product : Option Product)
      (outcome : Except ErrVal (Option AvailableProducts.AddResult))
      (reload : Except ErrVal (List Product))
  | nextAP
  | prevAP

/-- The session step: run one operation against the current system state. -/
def step (o : SysOp) (y : Sys) : Sys :=
  match o with
  | .checkStatusOP threw =>
      let outcome : Except ErrVal Bool :=
        if threw then .error .nullish else .ok (isOrderActivatedRemote y.server)
      { y with op := OrderProducts.checkOrderActivationStatus outcome y.op }
  | .wireDeliver result =>
      { y with op := (OrderProducts.wiredOrderItems result y.op).1 }
  | .refreshOP result =>
      { y with op := (OrderProducts.refreshOrderProducts result y.op).1 }
  | .activate threw succeeds =>
      if threw then
        { y with op := (OrderProducts.handleActivateOrder (.error .nullish) y.op).state }
      else
        let pr := activateOrderRemote y.server succeeds
        let r := OrderProducts.handleActivateOrder (.ok pr.2) y.op
        { y with op := r.state,
                 server := if r.remoteCalled then pr.1 else y.server }
  | .removeRow row outcome =>
      { y with op := (OrderProducts.handleRowAction "remove" row outcome y.op).state }
  | .productAddedMsg message =>
      { y with op := (OrderProducts.handleProductAddedMessage message y.op).1 }
  | .checkActivationAP threw =>
      let outcome : Except ErrVal Bool :=
        if threw then .error .nullish else .ok (isOrderActivatedRemote y.server)
      { y with ap := AvailableProducts.checkActivation outcome y.ap }
  | .loadAP outcome =>
      { y with ap := (AvailableProducts.loadProducts outcome y.ap).1 }
  | .searchAP value =>
      { y with ap := AvailableProducts.handleSearch value y.ap }
  | .addAP productId outcome reload =>
      { y with ap := (AvailableProducts.handleAddProduct productId outcome reload y.ap).state }
  | .addExtAP product outcome reload =>
      { y with ap :=
          (AvailableProducts.handleAddExternalProduct product outcome reload y.ap).state }
  | .nextAP => { y with ap := AvailableProducts.handleNextPage y.ap }
  | .prevAP => { y with ap := AvailableProducts.handlePrevPage y.ap }

/-- A session: fold the steps over an operation sequence. -/
def run (ops : List SysOp) (y : Sys) : Sys :=
  ops.foldl (fun y o => step o y) y

/-- Consistency of the view flags with the server: a view only believes
the order activated when the server does. -/
def SysInv (y : Sys) : Prop :=
  (y.op.isActivated = true → y.server.activated = true) ∧
  (y.ap.isActivated = true → y.server.activated = true)

instance (y : Sys) : Decidable (SysInv y) := by
  unfold SysInv
  infer_instance

/-! ### Concrete fixtures used by witnesses and counterexamples -/

/-- A concrete order line row. -/
def item1 : OrderItem :=
  { orderItemId := some "OI-1", productName := some "Widget",
    productCode := some "W-1", unitPrice := 10, quantity := 2,
    totalPrice := 20, removeDisabled := false }

/-- A concrete Order Line View state with one row, not activated. -/
def opBase : OPState :=
  { recordId := some "ORD-1", orderItems := [item1], isLoading := false,
    isActivating := false, isActivated := false, error := none }

/-- The Order Line View state with zero rows. -/
def opEmpty : OPState :=
  { opBase with orderItems := [] }

/-- The Order Line View state after activation. -/
def opActivated : OPState :=
  { opBase with isActivated := true,
                orderItems := [{ item1 with removeDisabled := true }] }

/-- A concrete local product row. -/
def localProduct : Product :=
  { productId := some "PID-1", productCode := some "PC-1",
    productName := some "Fiber Modem", category := some "Hardware",
    brand := some "KPN", listPrice := 49, isExternal := false,
    isAddedToOrder := false, statusLabel := none, statusClass := none,
    rowClass := none, sourceIcon := "utility:salesforce1",
    sourceBadgeClass := "slds-badge slds-theme_success", disableAdd := false }

/-- A concrete external product row. -/
def extProduct : Product :=
  { localProduct with
    productId := some "EXT-1", productCode := some "EC-1",
    productName := some "Partner SIM", isExternal := true,
    sourceIcon := "utility:world",
    sourceBadgeClass := "slds-badge slds-theme_warning" }

/-- A concrete Product List View state holding both sample rows. -/
def apBase : APState :=
  { recordId := some "ORD-1", products := [localProduct, extProduct],
    filteredProducts := [localProduct, extProduct], searchTerm := "",
    isLoading := false, error := none, includeExternal := true,
    sfCount := 1, apiCount := 1, totalCount := 2, showStats := true,
    pageSize := 10, currentPage := 1, isActivated := false }

/-- A distinct catalog row for each index. -/
def sampleProduct (i : Nat) : Product :=
  { localProduct with
    productId := some ("PID-" ++ toString i),
    productCode := some ("PC-" ++ toString i),
    productName := some ("Product " ++ toString i) }

/-- A 25-row catalog. -/
def catalog25 : List Product :=
  (List.range 25).map sampleProduct

/-- The Product List View showing the 25-row catalog, page size 10,
page 1, no search term. -/
def pageState25 : APState :=
  { apBase with products := catalog25, filteredProducts := catalog25,
                sfCount := 25, apiCount := 0, totalCount := 25 }

/-! ### Claim theorems -/

namespace Claims

open AvailableProducts OrderProducts

/-- Claim C8 counterexample: the claim says a string error with no body
and no message field is returned as is, but the empty string is falsy in
JavaScript, so `getErrorMessage("")` takes the first guard and yields the
fixed phrase instead of the string itself. -/
theorem getErrorMessage_empty_string_not_identity :
    ¬ getErrorMessage (ErrVal.str "") = "" := by
  decide

/-- Claim C8 (amended): `getErrorMessage` prefers the structured body
message when truthy (present and nonempty), then the own message field
when truthy, then returns a string error itself; falsy errors
(null/undefined/empty string) give the phrase "Unknown error occurred"
and any other object gives the administrator fallback phrase. It is a
total function into strings. -/
theorem getErrorMessage_normalizes (e : ErrVal) :
    (errFalsy e = true → getErrorMessage e = "Unknown error occurred") ∧
    (errFalsy e = false → ∀ m, errBodyMessage e = some m → m ≠ "" →
      getErrorMessage e = m) ∧
    (errFalsy e = false → truthyStr (errBodyMessage e) = false →
      ∀ m, errOwnMessage e = some m → m ≠ "" → getErrorMessage e = m) ∧
    (errFalsy e = false → truthyStr (errBodyMessage e) = false →
      truthyStr (errOwnMessage e) = false →
      ∀ v, e = ErrVal.str v → getErrorMessage e = v) ∧
    (errFalsy e = false → truthyStr (errBodyMessage e) = false →
      truthyStr (errOwnMessage e) = false → (∀ v, e ≠ ErrVal.str v) →
      getErrorMessage e = "An error occurred. Please contact your administrator.") := by
  refine ⟨?_, ?_, ?_, ?_, ?_⟩
  · intro h
    simp [getErrorMessage, h]
  · intro h m hm hne
    simp only [getErrorMessage, h, hm]
    simp [truthyStr, hne]
  · intro h hb m hm hne
    simp only [getErrorMessage, h, hb, hm]
    simp [truthyStr, hne]
  · intro h hb ho v hv
    subst hv
    simp [getErrorMessage, h, hb, ho]
  · intro h hb ho hs
    cases e with
    | nullish => simp [errFalsy] at h
    | str s => exact absurd rfl (hs s)
    | obj body message => simp [getErrorMessage, h, hb, ho]

/-- Witness for C8: a structured error body wins over the own message. -/
theorem getErrorMessage_normalizes_witness :
    getErrorMessage (ErrVal.obj (some { message := some "boom" }) (some "other")) = "boom" :=
  (getErrorMessage_normalizes
      (ErrVal.obj (some { message := some "boom" }) (some "other"))).2.1
    (by decide) "boom" rfl (by decide)

/-- Claim C10: the Order Line View message handler ignores null messages
and messages for another order: no delayed reload or record-view refresh
is scheduled and the state is returned unchanged. -/
theorem handleProductAddedMessage_filters (message : Option PAEvent) (s : OPState)
    (h : ∀ m, message = some m → m.orderId ≠ s.recordId) :
    handleProductAddedMessage message s = (s, []) := by
  cases message with
  | none => rfl
  | some m => simp [handleProductAddedMessage, h m rfl]

/-- Witness for C10: a message for a different order is ignored. -/
theorem handleProductAddedMessage_filters_witness :
    handleProductAddedMessage
      (some { productId := some "PID-1", orderItemId := some "OI-9",
              orderId := some "ORD-OTHER" }) opBase = (opBase, []) :=
  handleProductAddedMessage_filters _ _ (by decide)

/-- Claim C5: `handleActivateOrder` is guarded: with a missing order id,
an already activated order, or zero rows, it emits exactly one local
toast, makes no remote call, and leaves the state (hence `isActivated`
and the order items) unchanged. -/
theorem handleActivateOrder_guarded (outcome : Except ErrVal ActResult) (s : OPState)
    (h : truthyStr s.recordId = false ∨ s.isActivated = true ∨
      hasOrderItems s = false) :
    (handleActivateOrder outcome s).remoteCalled = false ∧
    (handleActivateOrder outcome s).state = s ∧
    (handleActivateOrder outcome s).toasts.length = 1 := by
  unfold handleActivateOrder
  rcases h with h | h | h
  · simp [h]
  · simp [h]
    split_ifs <;> simp
  · simp [h]
    split_ifs <;> simp

/-- Witness for C5: activation with zero rows is rejected locally. -/
theorem handleActivateOrder_guarded_witness :
    (truthyStr opEmpty.recordId = false ∨ opEmpty.isActivated = true ∨
      hasOrderItems opEmpty = false) ∧
    (handleActivateOrder (.ok { success := true, message := some "ok" }) opEmpty).remoteCalled
        = false ∧
    (handleActivateOrder (.ok { success := true, message := some "ok" }) opEmpty).state
        = opEmpty ∧
    (handleActivateOrder (.ok { success := true, message := some "ok" }) opEmpty).toasts.length
        = 1 :=
  ⟨by decide, handleActivateOrder_guarded _ _ (by decide)⟩

/-- Claim C6: a remove action on an activated order is rejected locally
with a single warning toast, no remote call, and an unchanged state, even
when the action is invoked directly. -/
theorem handleRowAction_remove_activated (row : OrderItem)
    (outcome : Except ErrVal (Option RemoveResult)) (s : OPState)
    (h : s.isActivated = true) :
    (handleRowAction "remove" row outcome s).remoteCalled = false ∧
    (handleRowAction "remove" row outcome s).state = s ∧
    (handleRowAction "remove" row outcome s).toasts =
      [mkToast "Warning" (some "Cannot remove products from an activated order")
        "warning"] := by
  unfold handleRowAction
  simp [h]

/-- Witness for C6: a direct remove on an activated order is a local
no-op. -/
theorem handleRowAction_remove_activated_witness :
    opActivated.isActivated = true ∧
    (handleRowAction "remove" item1 (.ok (some { success := true, message := some "ok" }))
        opActivated).remoteCalled = false ∧
    (handleRowAction "remove" item1 (.ok (some { success := true, message := some "ok" }))
        opActivated).state = opActivated ∧
    (handleRowAction "remove" item1 (.ok (some { success := true, message := some "ok" }))
        opActivated).toasts =
      [mkToast "Warning" (some "Cannot remove products from an activated order")
        "warning"] :=
  ⟨by decide, handleRowAction_remove_activated _ _ _ (by decide)⟩

/-- Claim C4: `applyFilters` only keeps rows of the loaded list, every
kept row matches the (nonempty) stored term, the page is reset to 1, and
searching two terms that agree up to letter case gives identical states. -/
theorem applyFilters_subset (s : APState) (t₁ t₂ : String)
    (h : toLowerCase t₁ = toLowerCase t₂) :
    (∀ p ∈ (applyFilters s).filteredProducts, p ∈ s.products) ∧
    (s.searchTerm ≠ "" → ∀ p ∈ (applyFilters s).filteredProducts,
      matchesSearch s.searchTerm p = true) ∧
    (applyFilters s).currentPage = 1 ∧
    handleSearch t₁ s = handleSearch t₂ s := by
  refine ⟨?_, ?_, rfl, ?_⟩
  · intro p hp
    unfold applyFilters at hp
    by_cases hterm : s.searchTerm ≠ ""
    · rw [if_pos hterm] at hp
      exact (List.mem_filter.mp hp).1
    · rw [if_neg hterm] at hp
      exact hp
  · intro hterm p hp
    unfold applyFilters at hp
    rw [if_pos hterm] at hp
    exact (List.mem_filter.mp hp).2
  · unfold handleSearch
    rw [h]

/-- Witness for C4: searching a mixed-case and a lower-case spelling of
the same term from the same state agree. -/
theorem applyFilters_subset_witness :
    (toLowerCase "FiBeR" = toLowerCase "fiber") ∧
    ((∀ p ∈ (applyFilters apBase).filteredProducts, p ∈ apBase.products) ∧
    (apBase.searchTerm ≠ "" → ∀ p ∈ (applyFilters apBase).filteredProducts,
      matchesSearch apBase.searchTerm p = true) ∧
    (applyFilters apBase).currentPage = 1 ∧
    handleSearch "FiBeR" apBase = handleSearch "fiber" apBase) :=
  ⟨by decide, applyFilters_subset apBase "FiBeR" "fiber" (by decide)⟩

/-- The list of page slices the pagination getters expose, one per page. -/
def pageSlices {α : Type} (l : List α) (pageSize n : Nat) : List (List α) :=
  (List.range n).map fun i => (l.drop (i * pageSize)).take pageSize

/-- Concatenating enough consecutive page slices rebuilds the list. -/
theorem pageSlices_flatten {α : Type} (pageSize : Nat) :
    ∀ (n : Nat) (l : List α), l.length ≤ n * pageSize →
      (pageSlices l pageSize n).flatten = l := by
  intro n
  induction n with
  | zero =>
      intro l h
      simp only [Nat.zero_mul, Nat.le_zero, List.length_eq_zero] at h
      simp [pageSlices, h]
  | succ n ih =>
      intro l h
      have hrest : (pageSlices (l.drop pageSize) pageSize n).flatten = l.drop pageSize := by
        apply ih
        have := List.length_drop pageSize l
        have hmul : (n + 1) * pageSize = n * pageSize + pageSize := Nat.succ_mul n pageSize
        omega
      have hhead : pageSlices l pageSize (n + 1) =
          l.take pageSize :: pageSlices (l.drop pageSize) pageSize n := by
        unfold pageSlices
        rw [List.range_succ_eq_map, List.map_cons, List.map_map]
        simp only [Nat.zero_mul, List.drop_zero]
        congr 1
        apply List.map_congr_left
        intro i _
        simp only [Function.comp_apply, List.drop_drop, Nat.succ_mul]
        rw [Nat.add_comm]
      rw [hhead, List.flatten_cons, hrest, List.take_append_drop]

/-- The filtered list always fits in `totalPages` pages. -/
theorem length_le_totalPages_mul (s : APState) (hP : 0 < s.pageSize) :
    s.filteredProducts.length ≤ totalPages s * s.pageSize := by
  unfold totalPages
  by_cases h : s.filteredProducts.length = 0
  · simp [h]
  · simp only [h, ne_eq, not_false_eq_true, if_pos]
    have h1 := Nat.div_add_mod (s.filteredProducts.length + s.pageSize - 1) s.pageSize
    have h2 := Nat.mod_lt (s.filteredProducts.length + s.pageSize - 1) hP
    rw [Nat.mul_comm] at h1
    omega

/-- Claim C3: with a positive page size, the page count is
`max 1 ⌈L / P⌉`, the visible slice of page `p` is exactly
`[(p-1)·P, p·P)` of the filtered list, and the concatenation of the
slices of pages `1..totalPages` is the filtered list itself (so no
element is dropped or duplicated across pages). -/
theorem pagination_pages (s : APState) (hP : 0 < s.pageSize) :
    totalPages s = max 1 ((s.filteredProducts.length + s.pageSize - 1) / s.pageSize) ∧
    (∀ p : Nat, 1 ≤ p → p ≤ totalPages s →
      pagedProducts { s with currentPage := p } =
        (s.filteredProducts.drop ((p - 1) * s.pageSize)).take s.pageSize) ∧
    (pageSlices s.filteredProducts s.pageSize (totalPages s)).flatten =
      s.filteredProducts := by
  refine ⟨?_, fun p _ _ => rfl, ?_⟩
  · unfold totalPages
    by_cases h : s.filteredProducts.length = 0
    · rw [if_neg (not_not_intro h), h]
      have hz : (0 + s.pageSize - 1) / s.pageSize = 0 := Nat.div_eq_of_lt (by omega)
      rw [hz]
      omega
    · rw [if_pos h]
      have h1 : 1 ≤ (s.filteredProducts.length + s.pageSize - 1) / s.pageSize := by
        rw [Nat.le_div_iff_mul_le hP]
        omega
      omega
  · exact pageSlices_flatten s.pageSize (totalPages s) s.filteredProducts
      (length_le_totalPages_mul s hP)

/-- The page count is at least one whenever the page size is positive. -/
theorem one_le_totalPages (s : APState) (hP : 0 < s.pageSize) :
    1 ≤ totalPages s := by
  unfold totalPages
  by_cases h : s.filteredProducts.length = 0
  · rw [if_neg (not_not_intro h)]
  · rw [if_pos h]
    rw [Nat.le_div_iff_mul_le hP]
    omega

/-- Claim C7: the pagination invariant `1 ≤ currentPage ≤ totalPages` is
preserved by next/prev (which are no-ops at the last and first page) and
re-established by `applyFilters` and `loadProducts`; on a 25-row catalog
with page size 10, page 1 shows rows 1-10 and is not last, page 3 shows
rows 21-25 and is last, and a further `handleNextPage` changes nothing. -/
theorem page_invariant_scenario (s : APState) (hP : 0 < s.pageSize)
    (h1 : 1 ≤ s.currentPage) (h2 : s.currentPage ≤ totalPages s) :
    (1 ≤ (handleNextPage s).currentPage ∧
      (handleNextPage s).currentPage ≤ totalPages (handleNextPage s)) ∧
    (totalPages s ≤ s.currentPage → handleNextPage s = s) ∧
    (1 ≤ (handlePrevPage s).currentPage ∧
      (handlePrevPage s).currentPage ≤ totalPages (handlePrevPage s)) ∧
    (s.currentPage = 1 → handlePrevPage s = s) ∧
    ((applyFilters s).currentPage = 1 ∧ 1 ≤ totalPages (applyFilters s)) ∧
    (∀ outcome, (loadProducts outcome s).1.currentPage = 1 ∧
      1 ≤ totalPages (loadProducts outcome s).1) ∧
    (pagedProducts pageState25 = catalog25.take 10 ∧
      isLastPage pageState25 = false ∧
      (handleNextPage (handleNextPage pageState25)).currentPage = 3 ∧
      pagedProducts (handleNextPage (handleNextPage pageState25)) =
        catalog25.drop 20 ∧
      (pagedProducts (handleNextPage (handleNextPage pageState25))).length = 5 ∧
      isLastPage (handleNextPage (handleNextPage pageState25)) = true ∧
      handleNextPage (handleNextPage (handleNextPage pageState25)) =
        handleNextPage (handleNextPage pageState25)) := by
  have hnext : ∀ hl : ¬ totalPages s ≤ s.currentPage,
      handleNextPage s = { s with currentPage := s.currentPage + 1 } := by
    intro hl
    unfold handleNextPage isLastPage
    simp [hl]
  have hnop : ∀ hl : totalPages s ≤ s.currentPage, handleNextPage s = s := by
    intro hl
    unfold handleNextPage isLastPage
    simp [hl]
  refine ⟨?_, hnop, ?_, ?_, ⟨rfl, ?_⟩, ?_, ?_⟩
  · by_cases hl : totalPages s ≤ s.currentPage
    · rw [hnop hl]
      exact ⟨h1, h2⟩
    · rw [hnext hl]
      refine ⟨?_, ?_⟩
      · show 1 ≤ s.currentPage + 1
        omega
      · show s.currentPage + 1 ≤ totalPages s
        omega
  · by_cases hf : s.currentPage = 1
    · have : handlePrevPage s = s := by
        unfold handlePrevPage isFirstPage
        simp [hf]
      rw [this]
      exact ⟨h1, h2⟩
    · have : handlePrevPage s = { s with currentPage := s.currentPage - 1 } := by
        unfold handlePrevPage isFirstPage
        simp [hf]
      rw [this]
      refine ⟨?_, ?_⟩
      · show 1 ≤ s.currentPage - 1
        omega
      · show s.currentPage - 1 ≤ totalPages s
        omega
  · intro hf
    unfold handlePrevPage isFirstPage
    simp [hf]
  · exact one_le_totalPages _ hP
  · intro outcome
    cases outcome with
    | ok data => exact ⟨rfl, one_le_totalPages _ hP⟩
    | error e => exact ⟨rfl, one_le_totalPages _ hP⟩
  · exact ⟨by decide, by decide, by decide, by decide, by decide, by decide, by decide⟩

/-- Witness for C7 at the 25-row catalog state. -/
theorem page_invariant_scenario_witness :
    (0 < pageState25.pageSize ∧ 1 ≤ pageState25.currentPage ∧
      pageState25.currentPage ≤ totalPages pageState25) ∧
    (1 ≤ (handleNextPage pageState25).currentPage ∧
      (handleNextPage pageState25).currentPage ≤
        totalPages (handleNextPage pageState25)) :=
  ⟨by decide,
    (page_invariant_scenario pageState25 (by decide) (by decide) (by decide)).1⟩

/-- Witness for C3 at a concrete two-row state with page size 10. -/
theorem pagination_pages_witness :
    (0 < apBase.pageSize) ∧
    totalPages apBase =
      max 1 ((apBase.filteredProducts.length + apBase.pageSize - 1) / apBase.pageSize) ∧
    (pageSlices apBase.filteredProducts apBase.pageSize (totalPages apBase)).flatten =
      apBase.filteredProducts :=
  ⟨by decide, (pagination_pages apBase (by decide)).1,
    (pagination_pages apBase (by decide)).2.2⟩

/-- A failed add result. -/
def failRes : AddResult :=
  { success := false, message := some "No pricebook entry", recordId := none }

/-- A successful add result. -/
def okRes : AddResult :=
  { success := true, message := some "Product added", recordId := some "OI-1" }

/-- A successful external add result. -/
def extOk : AddResult :=
  { success := true, message := some "External product added", recordId := some "OI-7" }

/-- Claim C9: when the remote add call of `handleAddProduct` fails —
either the result reports `success = false` or the call throws — the
`products` and `filteredProducts` collections are exactly unchanged, a
single sticky error toast is surfaced, and no event is published. -/
theorem handleAddProduct_failure (productId : Option String)
    (reload : Except ErrVal (List Product)) (s : APState) :
    (∀ r : AddResult, r.success = false →
      (handleAddProduct productId (.ok r) reload s).state.products = s.products ∧
      (handleAddProduct productId (.ok r) reload s).state.filteredProducts =
        s.filteredProducts ∧
      (handleAddProduct productId (.ok r) reload s).toasts.length = 1 ∧
      ((handleAddProduct productId (.ok r) reload s).toasts.all
        (fun t => t.variant = "error")) = true ∧
      (handleAddProduct productId (.ok r) reload s).events = []) ∧
    (∀ e : ErrVal,
      (handleAddProduct productId (.error e) reload s).state.products = s.products ∧
      (handleAddProduct productId (.error e) reload s).state.filteredProducts =
        s.filteredProducts ∧
      (handleAddProduct productId (.error e) reload s).toasts.length = 1 ∧
      ((handleAddProduct productId (.error e) reload s).toasts.all
        (fun t => t.variant = "error")) = true ∧
      (handleAddProduct productId (.error e) reload s).events = []) := by
  constructor
  · intro r hr
    unfold handleAddProduct
    split_ifs with hg
    · simp [mkToast]
    · simp [hr, mkToast]
  · intro e
    unfold handleAddProduct
    split_ifs with hg <;> simp [mkToast]

/-- Witness for C9: a `success = false` result leaves the collections
untouched. -/
theorem handleAddProduct_failure_witness :
    failRes.success = false ∧
    (handleAddProduct (some "PID-1") (Except.ok failRes) (Except.ok []) apBase).state.products
      = apBase.products :=
  ⟨rfl, ((handleAddProduct_failure (some "PID-1") (Except.ok []) apBase).1 failRes rfl).1⟩

/-- Claim C2 counterexample: a successful external add does NOT complete
with the row marked as added. `handleAddExternalProduct` marks the row
before `loadProducts`, and the reload replaces both collections with the
transformed fresh data, so the completed state shows the reloaded row
unmarked (`isAddedToOrder` false, no status label, add button enabled). -/
theorem handleAddExternalProduct_row_not_marked :
    ((handleAddExternalProduct (some extProduct) (.ok (some extOk))
        (.ok [extProduct]) apBase).state.products.map
      (fun p => (p.productId, p.isAddedToOrder, p.statusLabel, p.disableAdd))) =
      [(some "EXT-1", false, none, false)] := by
  decide

/-- Rows produced by `markProductAsAdded` that carry the marked id are
fully marked. -/
theorem markRow_marks (pid : Option String) (l : List Product) :
    ∀ p ∈ l.map (markRow pid), p.productId = pid →
      p.isAddedToOrder = true ∧ p.statusLabel = some "✓ Added" ∧
        p.disableAdd = true := by
  intro p hp hid
  obtain ⟨q, _, rfl⟩ := List.mem_map.mp hp
  unfold markRow at hid ⊢
  split_ifs with h
  · exact ⟨rfl, rfl, rfl⟩
  · rw [if_neg h] at hid
    exact absurd hid h

/-- Claim C2 (amended): a successful local add completes with every row
carrying the added product id marked as added in both (post-reload)
collections, and publishes the ProductAddedEvent with the product id, the
returned record id and the order id; a successful external add publishes
the same event (falling back to the product code as id) but performs its
marking before the reload, so its completed collections are exactly the
transformed reload data. -/
theorem addProduct_success_marks_publishes (s : APState) (pid : String)
    (r : AddResult) (data : List Product)
    (hpid : pid ≠ "") (hrec : truthyStr s.recordId = true) (hs : r.success = true) :
    ((handleAddProduct (some pid) (.ok r) (.ok data) s).remoteCalled = true) ∧
    (∀ p ∈ (handleAddProduct (some pid) (.ok r) (.ok data) s).state.products,
      p.productId = some pid → p.isAddedToOrder = true ∧
        p.statusLabel = some "✓ Added" ∧ p.disableAdd = true) ∧
    (∀ p ∈ (handleAddProduct (some pid) (.ok r) (.ok data) s).state.filteredProducts,
      p.productId = some pid → p.isAddedToOrder = true ∧
        p.statusLabel = some "✓ Added" ∧ p.disableAdd = true) ∧
    ((handleAddProduct (some pid) (.ok r) (.ok data) s).events =
      [{ productId := some pid, orderItemId := r.recordId, orderId := s.recordId }]) ∧
    (∀ (prod : Product) (ro : AddResult), ro.success = true →
      (handleAddExternalProduct (some prod) (.ok (some ro)) (.ok data) s).events =
        [{ productId := jsOr prod.productId prod.productCode,
           orderItemId := ro.recordId, orderId := s.recordId }] ∧
      (handleAddExternalProduct (some prod) (.ok (some ro)) (.ok data) s).state.products =
        transformProductData s.isActivated data) := by
  have h1 : truthyStr (some pid) = true := by simp [truthyStr, hpid]
  have hg : (!(truthyStr (some pid) && truthyStr s.recordId)) = false := by
    rw [h1, hrec]
    rfl
  refine ⟨?_, ?_, ?_, ?_, ?_⟩
  · unfold handleAddProduct
    rw [hg]
    simp [hs]
  · unfold handleAddProduct
    rw [hg]
    simp only [Bool.false_eq_true, if_false, hs, if_true]
    exact markRow_marks (some pid) _
  · unfold handleAddProduct
    rw [hg]
    simp only [Bool.false_eq_true, if_false, hs, if_true]
    exact markRow_marks (some pid) _
  · unfold handleAddProduct
    rw [hg]
    simp [hs, dispatchProductAddedEvent]
  · intro prod ro hro
    have hrec2 : (!truthyStr s.recordId) = false := by simp [hrec]
    constructor
    · unfold handleAddExternalProduct
      rw [hrec2]
      simp [hro, dispatchProductAddedEvent]
    · unfold handleAddExternalProduct
      rw [hrec2]
      simp [hro, loadProducts, applyFilters, markProductAsAdded]

/-- Witness for C2: a successful local add publishes exactly one event
with the product, record and order ids. -/
theorem addProduct_success_marks_publishes_witness :
    ("PID-1" ≠ "" ∧ truthyStr apBase.recordId = true ∧ okRes.success = true) ∧
    (handleAddProduct (some "PID-1") (.ok okRes)
        (.ok [localProduct, extProduct]) apBase).events =
      [{ productId := some "PID-1", orderItemId := okRes.recordId,
         orderId := apBase.recordId }] :=
  ⟨by decide,
    (addProduct_success_marks_publishes apBase "PID-1" okRes [localProduct, extProduct]
      (by decide) (by decide) (by decide)).2.2.2.1⟩

/-! Preservation lemmas feeding the activation-monotonicity argument:
every operation either leaves a view's `isActivated` flag alone, copies
the server flag into it, or (activation success only) sets it to true. -/

theorem wiredOrderItems_isActivated (result : Except ErrVal (List OrderItem))
    (s : OPState) : (wiredOrderItems result s).1.isActivated = s.isActivated := by
  cases result <;> rfl

theorem refreshOrderProducts_isActivated (result : Except ErrVal (List OrderItem))
    (s : OPState) :
    (refreshOrderProducts result s).1.isActivated = s.isActivated := by
  cases result <;> (simp [refreshOrderProducts, wiredOrderItems]; try (split_ifs <;> rfl))

theorem checkOrderActivationStatus_error (e : ErrVal) (s : OPState) :
    checkOrderActivationStatus (.error e) s = s := by
  unfold checkOrderActivationStatus
  split_ifs <;> rfl

theorem checkOrderActivationStatus_ok (b : Bool) (s : OPState) :
    (checkOrderActivationStatus (.ok b) s).isActivated = s.isActivated ∨
    (checkOrderActivationStatus (.ok b) s).isActivated = b := by
  simp only [checkOrderActivationStatus]
  split_ifs <;> simp

theorem handleActivateOrder_not_called (outcome : Except ErrVal ActResult)
    (s : OPState) (h : (handleActivateOrder outcome s).remoteCalled = false) :
    (handleActivateOrder outcome s).state = s := by
  unfold handleActivateOrder at h ⊢
  split_ifs at h ⊢
  · rfl
  · rfl
  · rfl
  · cases outcome with
    | ok r =>
        by_cases hr : r.success = true <;> simp [hr] at h
    | error e => simp at h

theorem handleActivateOrder_error_isActivated (e : ErrVal) (s : OPState) :
    (handleActivateOrder (.error e) s).state.isActivated = s.isActivated := by
  unfold handleActivateOrder
  split_ifs <;> rfl

theorem handleActivateOrder_fail_isActivated (r : ActResult) (s : OPState)
    (h : r.success = false) :
    (handleActivateOrder (.ok r) s).state.isActivated = s.isActivated := by
  unfold handleActivateOrder
  split_ifs <;> simp [h]

theorem handleActivateOrder_preserves_true (outcome : Except ErrVal ActResult)
    (s : OPState) (h : s.isActivated = true) :
    (handleActivateOrder outcome s).state.isActivated = true := by
  unfold handleActivateOrder
  split_ifs <;> simp_all

theorem handleRowAction_isActivated (actionName : String) (row : OrderItem)
    (outcome : Except ErrVal (Option RemoveResult)) (s : OPState) :
    (handleRowAction actionName row outcome s).state.isActivated = s.isActivated := by
  unfold handleRowAction
  split_ifs <;> try rfl
  cases outcome with
  | ok oro =>
      cases oro with
      | some r => by_cases hr : r.success = true <;> simp [hr]
      | none => rfl
  | error e => rfl

theorem handleProductAddedMessage_state (message : Option PAEvent) (s : OPState) :
    (handleProductAddedMessage message s).1 = s := by
  cases message with
  | none => rfl
  | some m => by_cases h : m.orderId = s.recordId <;> simp [handleProductAddedMessage, h]

theorem checkActivation_error (e : ErrVal) (s : APState) :
    checkActivation (.error e) s = s := by
  unfold checkActivation
  split_ifs <;> rfl

theorem checkActivation_ok (b : Bool) (s : APState) :
    (checkActivation (.ok b) s).isActivated = s.isActivated ∨
    (checkActivation (.ok b) s).isActivated = b := by
  simp only [checkActivation]
  split_ifs <;> simp

theorem loadProducts_isActivated (outcome : Except ErrVal (List Product))
    (s : APState) : (loadProducts outcome s).1.isActivated = s.isActivated := by
  cases outcome <;> rfl

theorem handleAddProduct_isActivated (productId : Option String)
    (outcome : Except ErrVal AddResult) (reload : Except ErrVal (List Product))
    (s : APState) :
    (handleAddProduct productId outcome reload s).state.isActivated = s.isActivated := by
  unfold handleAddProduct
  split_ifs
  · rfl
  · cases outcome with
    | ok r =>
        by_cases hs : r.success = true <;>
          simp [hs, markProductAsAdded, loadProducts_isActivated]
    | error e => rfl

theorem handleAddExternalProduct_isActivated (product : Option Product)
    (outcome : Except ErrVal (Option AddResult))
    (reload : Except ErrVal (List Product)) (s : APState) :
    (handleAddExternalProduct product outcome reload s).state.isActivated
      = s.isActivated := by
  unfold handleAddExternalProduct
  cases product with
  | none => rfl
  | some prod =>
      split_ifs
      · rfl
      · cases outcome with
        | ok oro =>
            cases oro with
            | some r =>
                by_cases hs : r.success = true <;>
                  simp [hs, markProductAsAdded, loadProducts_isActivated]
            | none => rfl
        | error e => rfl

theorem handleNextPage_isActivated (s : APState) :
    (handleNextPage s).isActivated = s.isActivated := by
  unfold handleNextPage
  split_ifs <;> rfl

theorem handlePrevPage_isActivated (s : APState) :
    (handlePrevPage s).isActivated = s.isActivated := by
  unfold handlePrevPage
  split_ifs <;> rfl

/-- One step preserves the view-server consistency invariant, and never
lowers the server flag or either view flag. -/
theorem step_preserves (o : SysOp) (y : Sys) (h : SysInv y) :
    SysInv (step o y) ∧
    (y.server.activated = true → (step o y).server.activated = true) ∧
    (y.op.isActivated = true → (step o y).op.isActivated = true) ∧
    (y.ap.isActivated = true → (step o y).ap.isActivated = true) := by
  obtain ⟨hop, hap⟩ := h
  cases o with
  | checkStatusOP threw =>
      cases threw with
      | true =>
          simp only [step, if_pos, checkOrderActivationStatus_error]
          exact ⟨⟨hop, hap⟩, id, id, id⟩
      | false =>
          simp only [step, Bool.false_eq_true, if_false, isOrderActivatedRemote]
          rcases checkOrderActivationStatus_ok y.server.activated y.op with heq | heq <;>
            refine ⟨⟨?_, hap⟩, id, ?_, id⟩ <;> rw [heq]
          · exact hop
          · exact id
          · exact id
          · exact hop
  | wireDeliver result =>
      refine ⟨⟨?_, hap⟩, id, ?_, id⟩ <;>
        rw [show (step (SysOp.wireDeliver result) y).op
              = (wiredOrderItems result y.op).1 from rfl,
            wiredOrderItems_isActivated]
      · exact hop
      · exact id
  | refreshOP result =>
      refine ⟨⟨?_, hap⟩, id, ?_, id⟩ <;>
        rw [show (step (SysOp.refreshOP result) y).op
              = (refreshOrderProducts result y.op).1 from rfl,
            refreshOrderProducts_isActivated]
      · exact hop
      · exact id
  | activate threw succeeds =>
      cases threw with
      | true =>
          simp only [step, if_pos]
          refine ⟨⟨?_, hap⟩, id, ?_, id⟩ <;> rw [handleActivateOrder_error_isActivated]
          · exact hop
          · exact id
      | false =>
          simp only [step, Bool.false_eq_true, if_false]
          by_cases hc :
              (handleActivateOrder (.ok (activateOrderRemote y.server succeeds).2)
                y.op).remoteCalled = true
          · simp only [hc, if_pos]
            cases hsucc : succeeds with
            | true =>
                have hsv : (activateOrderRemote y.server true).1.activated = true := rfl
                refine ⟨⟨fun _ => hsv, fun hy => ?_⟩, fun _ => hsv, fun hy => ?_, id⟩
                · exact hsv
                · exact handleActivateOrder_preserves_true _ _ hy
            | false =>
                have hr2 : (activateOrderRemote y.server false).2.success = false := rfl
                have hsv : (activateOrderRemote y.server false).1 = y.server := rfl
                rw [hsv]
                refine ⟨⟨?_, hap⟩, id, ?_, id⟩ <;>
                  rw [handleActivateOrder_fail_isActivated _ _ hr2]
                · exact hop
                · exact id
          · have hc2 :
                (handleActivateOrder (.ok (activateOrderRemote y.server succeeds).2)
                  y.op).remoteCalled = false := by
              cases hv :
                  (handleActivateOrder (.ok (activateOrderRemote y.server succeeds).2)
                    y.op).remoteCalled
              · rfl
              · exact absurd hv hc
            simp only [hc2, Bool.false_eq_true, if_false]
            rw [handleActivateOrder_not_called _ _ hc2]
            exact ⟨⟨hop, hap⟩, id, id, id⟩
  | removeRow row outcome =>
      refine ⟨⟨?_, hap⟩, id, ?_, id⟩ <;>
        rw [show (step (SysOp.removeRow row outcome) y).op
              = (handleRowAction "remove" row outcome y.op).state from rfl,
            handleRowAction_isActivated]
      · exact hop
      · exact id
  | productAddedMsg message =>
      refine ⟨⟨?_, hap⟩, id, ?_, id⟩ <;>
        rw [show (step (SysOp.productAddedMsg message) y).op
              = (handleProductAddedMessage message y.op).1 from rfl,
            handleProductAddedMessage_state]
      · exact hop
      · exact id
  | checkActivationAP threw =>
      cases threw with
      | true =>
          simp only [step, if_pos, checkActivation_error]
          exact ⟨⟨hop, hap⟩, id, id, id⟩
      | false =>
          simp only [step, Bool.false_eq_true, if_false, isOrderActivatedRemote]
          rcases checkActivation_ok y.server.activated y.ap with heq | heq <;>
            refine ⟨⟨hop, ?_⟩, id, id, ?_⟩ <;> rw [heq]
          · exact hap
          · exact id
          · exact id
          · exact hap
  | loadAP outcome =>
      refine ⟨⟨hop, ?_⟩, id, id, ?_⟩ <;>
        rw [show (step (SysOp.loadAP outcome) y).ap
              = (loadProducts outcome y.ap).1 from rfl,
            loadProducts_isActivated]
      · exact hap
      · exact id
  | searchAP value =>
      refine ⟨⟨hop, ?_⟩, id, id, ?_⟩ <;>
        rw [show (step (SysOp.searchAP value) y).ap
              = handleSearch value y.ap from rfl,
            show (handleSearch value y.ap).isActivated = y.ap.isActivated from rfl]
      · exact hap
      · exact id
  | addAP productId outcome reload =>
      refine ⟨⟨hop, ?_⟩, id, id, ?_⟩ <;>
        rw [show (step (SysOp.addAP productId outcome reload) y).ap
              = (handleAddProduct productId outcome reload y.ap).state from rfl,
            handleAddProduct_isActivated]
      · exact hap
      · exact id
  | addExtAP product outcome reload =>
      refine ⟨⟨hop, ?_⟩, id, id, ?_⟩ <;>
        rw [show (step (SysOp.addExtAP product outcome reload) y).ap
              = (handleAddExternalProduct product outcome reload y.ap).state from rfl,
            handleAddExternalProduct_isActivated]
      · exact hap
      · exact id
  | nextAP =>
      refine ⟨⟨hop, ?_⟩, id, id, ?_⟩ <;>
        rw [show (step SysOp.nextAP y).ap = handleNextPage y.ap from rfl,
            handleNextPage_isActivated]
      · exact hap
      · exact id
  | prevAP =>
      refine ⟨⟨hop, ?_⟩, id, id, ?_⟩ <;>
        rw [show (step SysOp.prevAP y).ap = handlePrevPage y.ap from rfl,
            handlePrevPage_isActivated]
      · exact hap
      · exact id

/-- Unfolding a session one step at a time. -/
theorem run_cons (o : SysOp) (ops : List SysOp) (y : Sys) :
    run (o :: ops) y = run ops (step o y) := rfl

/-- A whole session preserves the invariant and all three flags. -/
theorem run_preserves (ops : List SysOp) (y : Sys) (h : SysInv y) :
    SysInv (run ops y) ∧
    (y.server.activated = true → (run ops y).server.activated = true) ∧
    (y.op.isActivated = true → (run ops y).op.isActivated = true) ∧
    (y.ap.isActivated = true → (run ops y).ap.isActivated = true) := by
  induction ops generalizing y with
  | nil => exact ⟨h, id, id, id⟩
  | cons o rest ih =>
      have hs := step_preserves o y h
      have hr := ih (step o y) hs.1
      rw [run_cons]
      exact ⟨hr.1, fun hy => hr.2.1 (hs.2.1 hy), fun hy => hr.2.2.1 (hs.2.2.1 hy),
        fun hy => hr.2.2.2 (hs.2.2.2 hy)⟩

/-- Claim C1: within a session starting from a state whose view flags are
consistent with the server (for example any freshly mounted state with
both flags false), every sequence of operations of either view keeps each
view's `isActivated` flag monotone: once true it stays true. -/
theorem activation_monotonic (ops : List SysOp) (y : Sys) (h : SysInv y) :
    SysInv (run ops y) ∧
    ((run ops y).server.activated = true →
      ∀ more : List SysOp, (run more (run ops y)).server.activated = true) ∧
    ((run ops y).op.isActivated = true →
      ∀ more : List SysOp, (run more (run ops y)).op.isActivated = true) ∧
    ((run ops y).ap.isActivated = true →
      ∀ more : List SysOp, (run more (run ops y)).ap.isActivated = true) := by
  have h1 := run_preserves ops y h
  refine ⟨h1.1, ?_, ?_, ?_⟩
  · intro hy more
    exact (run_preserves more (run ops y) h1.1).2.1 hy
  · intro hy more
    exact (run_preserves more (run ops y) h1.1).2.2.1 hy
  · intro hy more
    exact (run_preserves more (run ops y) h1.1).2.2.2 hy

/-- A session state right after a successful activation of `opBase`. -/
def sysAfterActivation : Sys :=
  step (SysOp.activate false true)
    { server := { activated := false }, op := opBase, ap := apBase }

/-- Witness for C1: starting from a consistent state in which the Order
Line View has just observed a successful activation, a further sequence
of checks, deliveries and messages never clears the flag. -/
theorem activation_monotonic_witness :
    SysInv sysAfterActivation ∧
    sysAfterActivation.op.isActivated = true ∧
    (run [SysOp.checkStatusOP false, SysOp.wireDeliver (.ok [item1]),
          SysOp.checkActivationAP false, SysOp.productAddedMsg none]
        (run [] sysAfterActivation)).op.isActivated = true :=
  ⟨by decide, by decide,
    (activation_monotonic [] sysAfterActivation (by decide)).2.2.1 (by decide)
      [SysOp.checkStatusOP false, SysOp.wireDeliver (.ok [item1]),
       SysOp.checkActivationAP false, SysOp.productAddedMsg none]⟩

end Claims

end KpnOrder
